import Mathlib

/-!
Verification of the AgriSense Morocco dashboard (`src/app.py`).

The development shallowly embeds the decision-relevant parts of the
Streamlit application: the synthetic environmental-data generator, the
static region table, and the recommendation pipeline (a label-encoding
step followed by a freshly fitted classifier).  Machine floats are
modelled by exact rationals; the numpy random generator and the
scikit-learn random-forest classifier are library code, so they are
modelled as parameters constrained only by their documented contracts
(a seeded generator is a pure function of its seed and draw position;
a uniform draw lies in the half-open requested range; a fitted
classifier predicts one of the encoded labels it was trained on and
returns one probability per distinct training class).
-/

/-- An environmental reading: temperature (°C), rainfall (mm) and
vegetation index (NDVI), as produced in `dashboard_page`. -/
structure EnvironmentalReading where
  temperature : ℚ
  rainfall : ℚ
  vegetationIndex : ℚ
  deriving DecidableEq, Repr

/-- Modelled from the spec: the rule-based crop component of the
recommendation policy.  This variant is part of the repository's
documented "first conceptual code" and is absent from `src/app.py`
(which only contains the toy-classifier variant), so it is taken from
the spec's own words: crop is "Vegetables/Citrus" if
vegetationIndex > 0.6, else "Cereals" if vegetationIndex > 0.4, else
"Olive/DatePalm". -/
def ruleCrop (vegetationIndex : ℚ) : String :=
  if vegetationIndex > 0.6 then "Vegetables/Citrus"
  else if vegetationIndex > 0.4 then "Cereals"
  else "Olive/DatePalm"

/-- Modelled from the spec: the rule-based irrigation component of the
recommendation policy (absent from `src/app.py`): irrigation is
"High irrigation required" if rainfall < 20, else "Moderate irrigation"
if rainfall < 50, else "Low irrigation required". -/
def ruleIrrigation (rainfall : ℚ) : String :=
  if rainfall < 20 then "High irrigation required"
  else if rainfall < 50 then "Moderate irrigation"
  else "Low irrigation required"

/-- Modelled from the spec: the rule-based recommendation policy,
pairing the crop and irrigation decisions for a reading. -/
def ruleRecommendation (e : EnvironmentalReading) : String × String :=
  (ruleCrop e.vegetationIndex, ruleIrrigation e.rainfall)

example : ruleRecommendation ⟨25, 10, 0.7⟩ = ("Vegetables/Citrus", "High irrigation required") := by
  norm_num [ruleRecommendation, ruleCrop, ruleIrrigation]

example : ruleRecommendation ⟨25, 20, 0.6⟩ = ("Cereals", "Moderate irrigation") := by
  norm_num [ruleRecommendation, ruleCrop, ruleIrrigation]

/-- The `regions` dictionary drawn on the intro-page map
(`intro_page`, lines 109–116 of `src/app.py`): six Moroccan regions
with their (latitude, longitude) coordinates. -/
def regions : List (String × ℚ × ℚ) :=
  [("Souss-Massa", 30.4, -9.6),
   ("Gharb", 34.3, -6.3),
   ("Saïss", 34.0, -4.9),
   ("Haouz", 31.6, -8.0),
   ("Oriental", 34.6, -2.9),
   ("Draa-Tafilalet", 31.9, -5.5)]

/-- The options of the "Moroccan Region" selectbox on the dashboard
(`dashboard_page`, lines 134–137 of `src/app.py`). -/
def regionSelectOptions : List String :=
  ["Souss-Massa", "Gharb", "Saïss", "Haouz", "Oriental", "Draa-Tafilalet"]

/-- The options of the "Crop of Interest" selectbox on the dashboard. -/
def cropSelectOptions : List String :=
  ["Wheat", "Olives", "Tomatoes", "Citrus", "Dates"]

/-- A model of the numpy global random generator: a seeded generator is
a pure function of its seed, and each draw transforms the generator
state.  The concrete Mersenne-Twister stream and its floating-point
output are library code outside the repository, so they are kept
abstract; `uniform lo hi s` and `normal mean std s` return the drawn
value together with the successor state. -/
structure RngModel (σ : Type) where
  seed : ℕ → σ
  uniform : ℚ → ℚ → σ → ℚ × σ
  normal : ℚ → ℚ → σ → ℚ × σ

/-- The documented contract of `np.random.uniform(lo, hi)`: the drawn
value lies in the half-open interval [lo, hi). -/
def UniformContract {σ : Type} (R : RngModel σ) : Prop :=
  ∀ lo hi : ℚ, ∀ s : σ, lo < hi →
    lo ≤ (R.uniform lo hi s).1 ∧ (R.uniform lo hi s).1 < hi

/-- The simulated-data block of `dashboard_page` (lines 154–160 of
`src/app.py`): seed with `len(region) + refresh_weather`, draw
temperature from uniform(10, 35) and rainfall from uniform(0, 50);
reseed with `len(region) + refresh_ndvi` and set NDVI to the normal
(0.55, 0.1) draw clipped to [0.25, 0.85]. -/
def genReading {σ : Type} (R : RngModel σ) (region : String)
    (refreshWeather refreshNdvi : ℕ) : EnvironmentalReading :=
  let s0 := R.seed (region.length + refreshWeather)
  let t := (R.uniform 10 35 s0).1
  let s1 := (R.uniform 10 35 s0).2
  let rain := (R.uniform 0 50 s1).1
  let s2 := R.seed (region.length + refreshNdvi)
  let z := (R.normal 0.55 0.1 s2).1
  { temperature := t, rainfall := rain,
    vegetationIndex := min 0.85 (max 0.25 z) }

/-- The crop column of the inline training DataFrame
(line 175 of `src/app.py`). -/
def cropLabels : List String :=
  ["Wheat", "Olives", "Tomatoes", "Citrus", "Dates", "Wheat"]

/-- The irrigation column of the inline training DataFrame
(line 176 of `src/app.py`). -/
def irrigationLabels : List String :=
  ["High", "Low", "High", "Medium", "Low", "High"]

/-- Lexicographic strict order on character lists, comparing code
points; this is the element order `np.unique` sorts by. -/
def charListLtb : List Char → List Char → Bool
  | _, [] => false
  | [], _ :: _ => true
  | a :: as, b :: bs =>
    if a.toNat < b.toNat then true
    else if b.toNat < a.toNat then false
    else charListLtb as bs

/-- Lexicographic strict order on strings (by code points). -/
def strLtb (a b : String) : Bool := charListLtb a.data b.data

/-- Insert a string into a list before the first element that is not
below it (ascending insertion). -/
def insertAsc (s : String) : List String → List String
  | [] => [s]
  | x :: xs => if strLtb x s then x :: insertAsc s xs else s :: x :: xs

/-- The behaviour of `np.unique` used by `LabelEncoder.fit`: the
sorted list of distinct values. -/
def npUnique (l : List String) : List String :=
  l.dedup.foldr insertAsc []

/-- `LabelEncoder.transform` on a fitted encoder: the index of a label
in the sorted class list. -/
def encodeLabel (classes : List String) (s : String) : ℕ :=
  classes.indexOf s

/-- `LabelEncoder.inverse_transform` on a fitted encoder: the class at
a given index. -/
def decodeLabel (classes : List String) (i : ℕ) : String :=
  classes.getD i ""

/-- `le_crop.classes_`: the sorted distinct crop labels. -/
def cropClasses : List String := npUnique cropLabels

/-- `le_irr.classes_`: the sorted distinct irrigation labels. -/
def irrClasses : List String := npUnique irrigationLabels

example : cropClasses = ["Citrus", "Dates", "Olives", "Tomatoes", "Wheat"] := by decide

example : irrClasses = ["High", "Low", "Medium"] := by decide

/-- `y_crop = le_crop.fit_transform(data["crop"])`: the encoded crop
targets. -/
def yCrop : List ℕ := cropLabels.map (encodeLabel cropClasses)

/-- `y_irr = le_irr.fit_transform(data["irrigation"])`: the encoded
irrigation targets. -/
def yIrr : List ℕ := irrigationLabels.map (encodeLabel irrClasses)

example : yCrop = [4, 2, 3, 0, 1, 4] := by decide

example : yIrr = [0, 1, 0, 2, 1, 0] := by decide

/-- The i-th of the 6 points of `np.linspace(a, b, 6)`:
a + (b - a) * i / 5 for i = 0, …, 5 (endpoints included). -/
def linspace6 (a b : ℚ) (i : ℕ) : ℚ := a + (b - a) * i / 5

/-- Row i of the feature matrix `X = data[["temp","rain","ndvi"]]`
built in `dashboard_page` (lines 171–179 of `src/app.py`): each column
is a 6-point linspace centred on the current reading
(temperature ± 5, rainfall − 20 clamped at 0 to rainfall + 20,
ndvi ± 0.1). -/
def featureRow (e : EnvironmentalReading) (i : ℕ) : ℚ × ℚ × ℚ :=
  (linspace6 (e.temperature - 5) (e.temperature + 5) i,
   linspace6 (max (e.rainfall - 20) 0) (e.rainfall + 20) i,
   linspace6 (e.vegetationIndex - 0.1) (e.vegetationIndex + 0.1) i)

/-- The six feature rows of the inline training DataFrame. -/
def featureRows (e : EnvironmentalReading) : List (ℚ × ℚ × ℚ) :=
  (List.range 6).map (featureRow e)

/-- A fitted classifier: `predict` returns an encoded label for a
feature triple, `predictProba` a probability vector. -/
structure FittedModel where
  predict : ℚ × ℚ × ℚ → ℕ
  predictProba : ℚ × ℚ × ℚ → List ℚ

/-- A fitting procedure, as `RandomForestClassifier(...).fit`:
from a feature matrix and encoded targets to a fitted model. -/
def FitFn : Type := List (ℚ × ℚ × ℚ) → List ℕ → FittedModel

/-- The documented contract of a fitted scikit-learn classifier: on a
non-empty training target column, `predict` returns one of the target
values it was trained on, and `predict_proba` returns one probability
per distinct target class. -/
def FitsContract (fit : FitFn) : Prop :=
  ∀ X : List (ℚ × ℚ × ℚ), ∀ y : List ℕ, ∀ x : ℚ × ℚ × ℚ, y ≠ [] →
    (fit X y).predict x ∈ y ∧ ((fit X y).predictProba x).length = y.dedup.length

/-- The feature triple of the current reading,
`X_input = [[temperature, rainfall, ndvi]]`. -/
def inputRow (e : EnvironmentalReading) : ℚ × ℚ × ℚ :=
  (e.temperature, e.rainfall, e.vegetationIndex)

/-- The toy-classifier recommendation of `dashboard_page`
(lines 171–194 of `src/app.py`): fit one model per target on the
six-row inline dataset built from the current reading, predict the
encoded labels for the current reading, and decode them
(`crop_pred`, `irr_pred`). -/
def recommend (fit : FitFn) (e : EnvironmentalReading) : String × String :=
  let X := featureRows e
  (decodeLabel cropClasses ((fit X yCrop).predict (inputRow e)),
   decodeLabel irrClasses ((fit X yIrr).predict (inputRow e)))

/-- The per-class probability vector displayed in the bar chart,
`probs = crop_model.predict_proba(X_input)[0]` (line 200 of
`src/app.py`). -/
def recommendProbs (fit : FitFn) (e : EnvironmentalReading) : List ℚ :=
  (fit (featureRows e) yCrop).predictProba (inputRow e)

/-- The per-session inputs that can vary between dashboard renders:
the two sidebar selections and the two refresh counters. -/
structure SessionState where
  region : String
  cropOfInterest : String
  refreshWeather : ℕ
  refreshNdvi : ℕ

/-- The reading displayed by a dashboard render in a given session
state. -/
def dashboardReading {σ : Type} (R : RngModel σ) (s : SessionState) :
    EnvironmentalReading :=
  genReading R s.region s.refreshWeather s.refreshNdvi

/-- The recommendation displayed by a dashboard render in a given
session state. -/
def dashboardRecommend {σ : Type} (R : RngModel σ) (fit : FitFn)
    (s : SessionState) : String × String :=
  recommend fit (dashboardReading R s)

/-- A concrete generator model used to instantiate theorems: every
uniform draw returns the lower bound, every normal draw the mean. -/
def constRng : RngModel ℕ where
  seed := fun n => n
  uniform := fun lo _ s => (lo, s + 1)
  normal := fun mean _ s => (mean, s + 1)

/-- `constRng` meets the uniform-draw contract. -/
theorem constRng_uniform : UniformContract constRng :=
  fun lo _hi _s h => ⟨le_refl lo, h⟩

/-- A concrete fitting procedure used to instantiate theorems: predict
the first training target, give every distinct class probability 0. -/
def headFit : FitFn :=
  fun _X y =>
    { predict := fun _ => y.headD 0,
      predictProba := fun _ => List.replicate y.dedup.length 0 }

/-- `headFit` meets the classifier contract. -/
theorem headFit_contract : FitsContract headFit := by
  intro X y x hy
  refine ⟨?_, by simp [headFit]⟩
  cases y with
  | nil => exact absurd rfl hy
  | cons a l => simp [headFit]

/-- C1: the crop component of the rule-based recommendation follows
the vegetation-index thresholds — "Vegetables/Citrus" above 0.6,
"Cereals" in (0.4, 0.6], "Olive/DatePalm" at or below 0.4 — and the
reading (25, 10, 0.7) yields ("Vegetables/Citrus",
"High irrigation required"). -/
theorem crop_rule_thresholds (e : EnvironmentalReading) :
    (e.vegetationIndex > 0.6 → (ruleRecommendation e).1 = "Vegetables/Citrus") ∧
    (0.4 < e.vegetationIndex → e.vegetationIndex ≤ 0.6 →
      (ruleRecommendation e).1 = "Cereals") ∧
    (e.vegetationIndex ≤ 0.4 → (ruleRecommendation e).1 = "Olive/DatePalm") ∧
    ruleRecommendation ⟨25, 10, 0.7⟩ = ("Vegetables/Citrus", "High irrigation required") := by
  refine ⟨fun h => ?_, fun h1 h2 => ?_, fun h => ?_,
    by norm_num [ruleRecommendation, ruleCrop, ruleIrrigation]⟩ <;>
    simp only [ruleRecommendation, ruleCrop] <;>
    split_ifs <;> first | rfl | linarith

/-- C1 witness: at the concrete reading (25, 10, 0.7) the crop
threshold hypothesis holds and the crop is "Vegetables/Citrus". -/
theorem crop_rule_thresholds_inst :
    (ruleRecommendation ⟨25, 10, 0.7⟩).1 = "Vegetables/Citrus" :=
  (crop_rule_thresholds ⟨25, 10, 0.7⟩).1 (by norm_num)

/-- C2: the irrigation component of the rule-based recommendation
follows the rainfall thresholds — "High irrigation required" below 20,
"Moderate irrigation" in [20, 50), "Low irrigation required" at or
above 50. -/
theorem irrigation_rule_thresholds (e : EnvironmentalReading) :
    (e.rainfall < 20 → (ruleRecommendation e).2 = "High irrigation required") ∧
    (20 ≤ e.rainfall → e.rainfall < 50 →
      (ruleRecommendation e).2 = "Moderate irrigation") ∧
    (50 ≤ e.rainfall → (ruleRecommendation e).2 = "Low irrigation required") := by
  refine ⟨fun h => ?_, fun h1 h2 => ?_, fun h => ?_⟩ <;>
    simp only [ruleRecommendation, ruleIrrigation] <;>
    split_ifs <;> first | rfl | linarith

/-- C2 witness: at the concrete reading (25, 10, 0.7) the rainfall
hypothesis 10 < 20 holds and the irrigation is
"High irrigation required". -/
theorem irrigation_rule_thresholds_inst :
    (ruleRecommendation ⟨25, 10, 0.7⟩).2 = "High irrigation required" :=
  (irrigation_rule_thresholds ⟨25, 10, 0.7⟩).1 (by norm_num)

/-- C3: at the exact boundary values rainfall = 20 and
vegetationIndex = 0.6 the rule-based recommendation falls to the
lower-priority branches, giving ("Cereals", "Moderate irrigation")
and not ("Vegetables/Citrus", "High irrigation required"), because the
comparisons are strict. -/
theorem boundary_values_lower_branch (t : ℚ) :
    ruleRecommendation ⟨t, 20, 0.6⟩ = ("Cereals", "Moderate irrigation") ∧
    (ruleRecommendation ⟨t, 20, 0.6⟩).1 ≠ "Vegetables/Citrus" ∧
    (ruleRecommendation ⟨t, 20, 0.6⟩).2 ≠ "High irrigation required" := by
  have h : ruleRecommendation ⟨t, 20, 0.6⟩ = ("Cereals", "Moderate irrigation") := by
    norm_num [ruleRecommendation, ruleCrop, ruleIrrigation]
  refine ⟨h, ?_, ?_⟩ <;> rw [h] <;> decide

/-- C8: the region table is a static mapping over exactly six distinct
Moroccan regions, and the dashboard selectbox offers exactly the
regions drawn on the intro-page map, namely Souss-Massa, Gharb, Saïss,
Haouz, Oriental and Draa-Tafilalet. -/
theorem region_table_static :
    regions.map Prod.fst = regionSelectOptions ∧
    regionSelectOptions =
      ["Souss-Massa", "Gharb", "Saïss", "Haouz", "Oriental", "Draa-Tafilalet"] ∧
    regions.length = 6 ∧
    (regions.map Prod.fst).Nodup := by
  refine ⟨?_, ?_, ?_, ?_⟩ <;> decide

/-- C9: every generated reading has temperature in [10, 35], rainfall
in [0, 50) and vegetation index in [0.25, 0.85] ⊆ [0, 1]; hence the
rule-based "Low irrigation required" branch is unreachable on
generated readings. -/
theorem generated_reading_ranges {σ : Type} (R : RngModel σ)
    (hR : UniformContract R) (region : String) (rfw rfn : ℕ) :
    10 ≤ (genReading R region rfw rfn).temperature ∧
    (genReading R region rfw rfn).temperature ≤ 35 ∧
    0 ≤ (genReading R region rfw rfn).rainfall ∧
    (genReading R region rfw rfn).rainfall < 50 ∧
    0.25 ≤ (genReading R region rfw rfn).vegetationIndex ∧
    (genReading R region rfw rfn).vegetationIndex ≤ 0.85 ∧
    0 ≤ (genReading R region rfw rfn).vegetationIndex ∧
    (genReading R region rfw rfn).vegetationIndex ≤ 1 ∧
    ruleIrrigation (genReading R region rfw rfn).rainfall ≠ "Low irrigation required" := by
  obtain ⟨ht1, ht2⟩ := hR 10 35 (R.seed (region.length + rfw)) (by norm_num)
  obtain ⟨hr1, hr2⟩ :=
    hR 0 50 ((R.uniform 10 35 (R.seed (region.length + rfw))).2) (by norm_num)
  simp only [genReading]
  refine ⟨ht1, le_of_lt ht2, hr1, hr2,
    le_min (by norm_num) (le_max_left _ _),
    min_le_left _ _,
    le_trans (by norm_num) (le_min (by norm_num) (le_max_left _ _)),
    le_trans (min_le_left _ _) (by norm_num), ?_⟩
  unfold ruleIrrigation
  split_ifs <;> decide

/-- C9 witness: the ranges hold at the concrete generator `constRng`,
region "Gharb" and zero refresh counters. -/
theorem generated_reading_ranges_inst :
    10 ≤ (genReading constRng "Gharb" 0 0).temperature ∧
    (genReading constRng "Gharb" 0 0).temperature ≤ 35 ∧
    0 ≤ (genReading constRng "Gharb" 0 0).rainfall ∧
    (genReading constRng "Gharb" 0 0).rainfall < 50 ∧
    0.25 ≤ (genReading constRng "Gharb" 0 0).vegetationIndex ∧
    (genReading constRng "Gharb" 0 0).vegetationIndex ≤ 0.85 ∧
    0 ≤ (genReading constRng "Gharb" 0 0).vegetationIndex ∧
    (genReading constRng "Gharb" 0 0).vegetationIndex ≤ 1 ∧
    ruleIrrigation (genReading constRng "Gharb" 0 0).rainfall ≠ "Low irrigation required" :=
  generated_reading_ranges constRng constRng_uniform "Gharb" 0 0

/-- C10: the generated reading depends on the selected region only
through the length of its name: two regions with names of equal length
and equal refresh counters yield the same reading, hence the same
recommendation under either variant. -/
theorem reading_depends_only_on_name_length {σ : Type} (R : RngModel σ)
    (fit : FitFn) (r1 r2 : String) (rfw rfn : ℕ)
    (h : r1.length = r2.length) :
    genReading R r1 rfw rfn = genReading R r2 rfw rfn ∧
    recommend fit (genReading R r1 rfw rfn) =
      recommend fit (genReading R r2 rfw rfn) ∧
    ruleRecommendation (genReading R r1 rfw rfn) =
      ruleRecommendation (genReading R r2 rfw rfn) := by
  have hg : genReading R r1 rfw rfn = genReading R r2 rfw rfn := by
    simp only [genReading, h]
  exact ⟨hg, by rw [hg], by rw [hg]⟩

/-- C10 witness: "Gharb" and "Saïss" have names of equal length, so
with the concrete generator `constRng` and fitting procedure `headFit`
they produce identical readings and recommendations. -/
theorem reading_depends_only_on_name_length_inst :
    genReading constRng "Gharb" 0 0 = genReading constRng "Saïss" 0 0 ∧
    recommend headFit (genReading constRng "Gharb" 0 0) =
      recommend headFit (genReading constRng "Saïss" 0 0) ∧
    ruleRecommendation (genReading constRng "Gharb" 0 0) =
      ruleRecommendation (genReading constRng "Saïss" 0 0) :=
  reading_depends_only_on_name_length constRng headFit "Gharb" "Saïss" 0 0 (by decide)

/-- The crop enumeration declared in the spec's data model, used to
check the code's vocabulary against the spec's. -/
def specCropVocabulary : List String :=
  ["Vegetables/Citrus", "Cereals", "Olive/DatePalm",
   "Wheat", "Olives", "Tomatoes", "Citrus", "Dates"]

/-- Any encoded crop target decodes to one of the crop classes. -/
theorem decode_mem_of_mem_yCrop {i : ℕ} (hi : i ∈ yCrop) :
    decodeLabel cropClasses i ∈ cropClasses := by
  have hy : yCrop = [4, 2, 3, 0, 1, 4] := by decide
  rw [hy] at hi
  simp only [List.mem_cons, List.not_mem_nil, or_false] at hi
  rcases hi with rfl | rfl | rfl | rfl | rfl | rfl <;> decide

/-- Any encoded irrigation target decodes to one of the irrigation
classes. -/
theorem decode_mem_of_mem_yIrr {i : ℕ} (hi : i ∈ yIrr) :
    decodeLabel irrClasses i ∈ irrClasses := by
  have hy : yIrr = [0, 1, 0, 2, 1, 0] := by decide
  rw [hy] at hi
  simp only [List.mem_cons, List.not_mem_nil, or_false] at hi
  rcases hi with rfl | rfl | rfl | rfl | rfl | rfl <;> decide

/-- Under the classifier contract, the predicted crop label is one of
the crop classes seen in training. -/
theorem recommend_fst_mem (fit : FitFn) (hf : FitsContract fit)
    (e : EnvironmentalReading) : (recommend fit e).1 ∈ cropClasses :=
  decode_mem_of_mem_yCrop
    (hf (featureRows e) yCrop (inputRow e) (by decide)).1

/-- Under the classifier contract, the predicted irrigation label is
one of the irrigation classes seen in training. -/
theorem recommend_snd_mem (fit : FitFn) (hf : FitsContract fit)
    (e : EnvironmentalReading) : (recommend fit e).2 ∈ irrClasses :=
  decode_mem_of_mem_yIrr
    (hf (featureRows e) yIrr (inputRow e) (by decide)).1

/-- C7: for every reading, the recommendation stays inside the
declared enumerations: the toy-classifier crop label lies in the
spec's crop vocabulary (it can only be a label of the training
column), its irrigation label lies in the High/Medium/Low set, and the
rule-based labels lie in their three-value vocabularies. -/
theorem recommendation_labels_in_enums (fit : FitFn)
    (hf : FitsContract fit) (e : EnvironmentalReading) :
    (recommend fit e).1 ∈ specCropVocabulary ∧
    (recommend fit e).2 ∈ ["High", "Medium", "Low"] ∧
    ruleCrop e.vegetationIndex ∈ specCropVocabulary ∧
    ruleIrrigation e.rainfall ∈
      ["High irrigation required", "Moderate irrigation", "Low irrigation required"] := by
  have hsub : ∀ x ∈ cropClasses, x ∈ specCropVocabulary := by decide
  have hsub2 : ∀ x ∈ irrClasses, x ∈ ["High", "Medium", "Low"] := by decide
  refine ⟨hsub _ (recommend_fst_mem fit hf e),
    hsub2 _ (recommend_snd_mem fit hf e), ?_, ?_⟩
  · unfold ruleCrop
    split_ifs <;> decide
  · unfold ruleIrrigation
    split_ifs <;> decide

/-- C7 witness: the enumerations hold at the concrete fitting
procedure `headFit` and the reading (25, 10, 0.7). -/
theorem recommendation_labels_in_enums_inst :
    (recommend headFit ⟨25, 10, 0.7⟩).1 ∈ specCropVocabulary ∧
    (recommend headFit ⟨25, 10, 0.7⟩).2 ∈ ["High", "Medium", "Low"] ∧
    ruleCrop (0.7 : ℚ) ∈ specCropVocabulary ∧
    ruleIrrigation (10 : ℚ) ∈
      ["High irrigation required", "Moderate irrigation", "Low irrigation required"] :=
  recommendation_labels_in_enums headFit headFit_contract ⟨25, 10, 0.7⟩

/-- C5: the recommendation policy is total on every generated reading:
the rule-based variant always lands in one of its three crop and three
irrigation outputs, and the toy-classifier variant always decodes to a
trained class label (the decoder's out-of-range branch is never
taken); no error branch exists. -/
theorem policy_total {σ : Type} (R : RngModel σ) (fit : FitFn)
    (hf : FitsContract fit) (region : String) (rfw rfn : ℕ) :
    ruleCrop (genReading R region rfw rfn).vegetationIndex ∈
      ["Vegetables/Citrus", "Cereals", "Olive/DatePalm"] ∧
    ruleIrrigation (genReading R region rfw rfn).rainfall ∈
      ["High irrigation required", "Moderate irrigation", "Low irrigation required"] ∧
    (recommend fit (genReading R region rfw rfn)).1 ∈ cropClasses ∧
    (recommend fit (genReading R region rfw rfn)).2 ∈ irrClasses ∧
    (recommend fit (genReading R region rfw rfn)).1 ≠ "" ∧
    (recommend fit (genReading R region rfw rfn)).2 ≠ "" := by
  have h1 := recommend_fst_mem fit hf (genReading R region rfw rfn)
  have h2 := recommend_snd_mem fit hf (genReading R region rfw rfn)
  have hne1 : ∀ x ∈ cropClasses, x ≠ "" := by decide
  have hne2 : ∀ x ∈ irrClasses, x ≠ "" := by decide
  refine ⟨?_, ?_, h1, h2, hne1 _ h1, hne2 _ h2⟩
  · unfold ruleCrop
    split_ifs <;> decide
  · unfold ruleIrrigation
    split_ifs <;> decide

/-- C5 witness: totality holds at the concrete generator `constRng`,
fitting procedure `headFit`, region "Gharb" and zero counters. -/
theorem policy_total_inst :
    ruleCrop (genReading constRng "Gharb" 0 0).vegetationIndex ∈
      ["Vegetables/Citrus", "Cereals", "Olive/DatePalm"] ∧
    ruleIrrigation (genReading constRng "Gharb" 0 0).rainfall ∈
      ["High irrigation required", "Moderate irrigation", "Low irrigation required"] ∧
    (recommend headFit (genReading constRng "Gharb" 0 0)).1 ∈ cropClasses ∧
    (recommend headFit (genReading constRng "Gharb" 0 0)).2 ∈ irrClasses ∧
    (recommend headFit (genReading constRng "Gharb" 0 0)).1 ≠ "" ∧
    (recommend headFit (genReading constRng "Gharb" 0 0)).2 ≠ "" :=
  policy_total constRng headFit headFit_contract "Gharb" 0 0

/-- C6: each recommendation request fits the classifiers on the
six-row inline dataset whose feature columns are the three linspaces
centred on the current reading and whose targets are the fixed crop
and irrigation label columns, predicts the encoded labels at the
current reading and decodes them, and the displayed probability
vector has exactly one entry per crop class (five classes). -/
theorem toy_classifier_pipeline (fit : FitFn) (hf : FitsContract fit)
    (e : EnvironmentalReading) :
    (featureRows e).length = 6 ∧
    cropLabels.length = 6 ∧
    irrigationLabels.length = 6 ∧
    (featureRows e).map (fun p => p.1) =
      (List.range 6).map (linspace6 (e.temperature - 5) (e.temperature + 5)) ∧
    (featureRows e).map (fun p => p.2.1) =
      (List.range 6).map (linspace6 (max (e.rainfall - 20) 0) (e.rainfall + 20)) ∧
    (featureRows e).map (fun p => p.2.2) =
      (List.range 6).map (linspace6 (e.vegetationIndex - 0.1) (e.vegetationIndex + 0.1)) ∧
    recommend fit e =
      (decodeLabel cropClasses ((fit (featureRows e) yCrop).predict (inputRow e)),
       decodeLabel irrClasses ((fit (featureRows e) yIrr).predict (inputRow e))) ∧
    (recommendProbs fit e).length = cropClasses.length ∧
    cropClasses.length = 5 := by
  have hp := (hf (featureRows e) yCrop (inputRow e) (by decide)).2
  have hc : yCrop.dedup.length = cropClasses.length := by decide
  exact ⟨rfl, rfl, rfl, rfl, rfl, rfl, rfl, hp.trans hc, by decide⟩

/-- C6 witness: the pipeline shape holds at the concrete fitting
procedure `headFit` and the reading (25, 10, 0.7). -/
theorem toy_classifier_pipeline_inst :
    (featureRows ⟨25, 10, 0.7⟩).length = 6 ∧
    cropLabels.length = 6 ∧
    irrigationLabels.length = 6 ∧
    (featureRows ⟨25, 10, 0.7⟩).map (fun p => p.1) =
      (List.range 6).map (linspace6 (25 - 5) (25 + 5)) ∧
    (featureRows ⟨25, 10, 0.7⟩).map (fun p => p.2.1) =
      (List.range 6).map (linspace6 (max (10 - 20) 0) (10 + 20)) ∧
    (featureRows ⟨25, 10, 0.7⟩).map (fun p => p.2.2) =
      (List.range 6).map (linspace6 (0.7 - 0.1) (0.7 + 0.1)) ∧
    recommend headFit ⟨25, 10, 0.7⟩ =
      (decodeLabel cropClasses
        ((headFit (featureRows ⟨25, 10, 0.7⟩) yCrop).predict (inputRow ⟨25, 10, 0.7⟩)),
       decodeLabel irrClasses
        ((headFit (featureRows ⟨25, 10, 0.7⟩) yIrr).predict (inputRow ⟨25, 10, 0.7⟩))) ∧
    (recommendProbs headFit ⟨25, 10, 0.7⟩).length = cropClasses.length ∧
    cropClasses.length = 5 :=
  toy_classifier_pipeline headFit headFit_contract ⟨25, 10, 0.7⟩

/-- C4 counterexample: the training set is not fixed across
invocations.  The readings (25, 10, 0.7) and (30, 10, 0.7) — both
inside the generator's ranges — give the classifier different feature
matrices (their first temperature entries are 20 and 25). -/
theorem training_set_not_fixed :
    featureRows ⟨25, 10, 0.7⟩ ≠ featureRows ⟨30, 10, 0.7⟩ := by
  intro h
  have hA : (featureRows ⟨25, 10, 0.7⟩).head? =
      some (featureRow ⟨25, 10, 0.7⟩ 0) := rfl
  have hB : (featureRows ⟨30, 10, 0.7⟩).head? =
      some (featureRow ⟨30, 10, 0.7⟩ 0) := rfl
  have h' := congrArg List.head? h
  rw [hA, hB] at h'
  have h0 := Option.some.inj h'
  have h1 := congrArg Prod.fst h0
  norm_num [featureRow, linspace6] at h1

/-- C4 (amended): the recommendation is a function of the reading and
the fitting procedure alone — two dashboard renders whose session
states produce the same reading build the same feature matrix and the
same recommendation, whatever else (selected crop of interest, region
name, counters) differs — and the six target label pairs are fixed;
the feature matrix itself, however, varies with the reading. -/
theorem recommendation_function_of_reading {σ : Type} (R : RngModel σ)
    (fit : FitFn) (s1 s2 : SessionState)
    (h : dashboardReading R s1 = dashboardReading R s2) :
    featureRows (dashboardReading R s1) = featureRows (dashboardReading R s2) ∧
    dashboardRecommend R fit s1 = dashboardRecommend R fit s2 ∧
    cropLabels = ["Wheat", "Olives", "Tomatoes", "Citrus", "Dates", "Wheat"] ∧
    irrigationLabels = ["High", "Low", "High", "Medium", "Low", "High"] :=
  ⟨by rw [h], by simp only [dashboardRecommend, h], rfl, rfl⟩

/-- C4 witness: two session states that differ only in the selected
crop of interest produce the same reading under `constRng`, hence the
same training data and recommendation. -/
theorem recommendation_function_of_reading_inst :
    featureRows (dashboardReading constRng ⟨"Gharb", "Wheat", 0, 0⟩) =
      featureRows (dashboardReading constRng ⟨"Gharb", "Olives", 0, 0⟩) ∧
    dashboardRecommend constRng headFit ⟨"Gharb", "Wheat", 0, 0⟩ =
      dashboardRecommend constRng headFit ⟨"Gharb", "Olives", 0, 0⟩ ∧
    cropLabels = ["Wheat", "Olives", "Tomatoes", "Citrus", "Dates", "Wheat"] ∧
    irrigationLabels = ["High", "Low", "High", "Medium", "Low", "High"] :=
  recommendation_function_of_reading constRng headFit
    ⟨"Gharb", "Wheat", 0, 0⟩ ⟨"Gharb", "Olives", 0, 0⟩ rfl

